import Mathlib

/-!
Verification development for the TGMediaDownloader bot (src/bot.py).

The Python source is shallowly embedded: every pure helper of bot.py is
translated into an executable Lean definition with the same name; the
interactions with external collaborators (Telegram transport, yt-dlp engine,
filesystem, environment variables) are made explicit as oracle arguments so
that the handlers become pure functions of those oracles.
-/

namespace TGMedia

/-- `SUPPORTED_DOMAINS` tuple from bot.py. -/
def SUPPORTED_DOMAINS : List String :=
  ["instagram.com", "instagr.am", "tiktok.com", "youtube.com", "youtu.be"]

/-- `IMAGE_EXTENSIONS` set from bot.py. -/
def IMAGE_EXTENSIONS : List String := [".jpg", ".jpeg", ".png", ".webp", ".bmp"]

/-- `VIDEO_EXTENSIONS` set from bot.py. -/
def VIDEO_EXTENSIONS : List String := [".mp4", ".mov", ".m4v", ".webm", ".mkv", ".avi", ".gif"]

/-- The `UserSettings` dataclass from bot.py with its default field values. -/
structure UserSettings where
  video_quality : String := "best"
  add_link : Bool := true
  send_as_file : Bool := false
deriving DecidableEq, Repr

/-! ## Environment access and `load_settings` -/

/-- Model of Python `str.strip()` (whitespace is modelled as the ASCII
whitespace characters of `Char.isWhitespace`). -/
def pyStrip (s : String) : String :=
  ⟨((s.data.dropWhile Char.isWhitespace).reverse.dropWhile Char.isWhitespace).reverse⟩

/-- Model of Python truthiness-based `x or default` for an optional
environment variable: `None` and the empty string both fall back. -/
def pyOr (x : Option String) (d : String) : String :=
  match x with
  | some s => if s = "" then d else s
  | none => d

/-- Digit run of Python `int()` after the sign: decimal digits with single
underscores allowed between digits. Accumulates into `acc`. -/
def parseDigitsAux (acc : Nat) : List Char → Option Nat
  | [] => some acc
  | '_' :: c :: tl =>
      if c.isDigit then parseDigitsAux (acc * 10 + (c.toNat - 48)) tl else none
  | c :: tl =>
      if c.isDigit then parseDigitsAux (acc * 10 + (c.toNat - 48)) tl else none

/-- Model of Python `int(s)` on a decimal string: surrounding whitespace is
ignored, an optional sign is allowed, then digits (with underscores between
digits); returns `none` where Python raises `ValueError`. -/
def pyInt (s : String) : Option Int :=
  match (pyStrip s).data with
  | '-' :: c :: tl =>
      if c.isDigit then (parseDigitsAux (c.toNat - 48) tl).map (fun n => -(n : Int)) else none
  | '+' :: c :: tl =>
      if c.isDigit then (parseDigitsAux (c.toNat - 48) tl).map (fun n => (n : Int)) else none
  | c :: tl =>
      if c.isDigit then (parseDigitsAux (c.toNat - 48) tl).map (fun n => (n : Int)) else none
  | [] => none

/-- The environment variables read by `load_settings` (`None` = unset). -/
structure Env where
  bot_token : Option String
  cache_chat_id : Option String
  max_file_size_mb : Option String
  cookies_file : Option String
deriving DecidableEq, Repr

/-- The distinct `ValueError` conditions `load_settings` can raise, in the
order the Python code can hit them. -/
inductive ConfigError where
  | badMaxSize
  | missingToken
  | missingCacheChatId
  | badCacheChatId
deriving DecidableEq, Repr

/-- The tuple returned by `load_settings` on success. -/
structure Settings where
  token : String
  cache_chat_id : Int
  max_size_bytes : Int
  cookies_file : Option String
deriving DecidableEq, Repr

/-- `load_settings` from bot.py.  Evaluation order matches the source: the
`MAX_FILE_SIZE_MB` conversion runs before the token/chat-id checks, so an
unparsable size raises first. -/
def load_settings (env : Env) : Except ConfigError Settings :=
  let token := pyStrip (env.bot_token.getD "")
  let rawCacheChatId := pyStrip (env.cache_chat_id.getD "")
  match pyInt (pyStrip (pyOr env.max_file_size_mb "49")) with
  | none => .error .badMaxSize
  | some mb =>
    let cookiesStr := pyStrip (env.cookies_file.getD "")
    let cookies := if cookiesStr = "" then none else some cookiesStr
    if token = "" then .error .missingToken
    else if rawCacheChatId = "" then .error .missingCacheChatId
    else
      match pyInt rawCacheChatId with
      | none => .error .badCacheChatId
      | some cid => .ok ⟨token, cid, mb * 1024 * 1024, cookies⟩

/-! ## `extract_url` : the regex `https?://[^\s]+` (case-insensitive scheme),
first match, then trailing `)`, `.`, `,` stripped. -/

/-- Characters Python's `\s` matches in ASCII text. -/
def pyIsSpace (c : Char) : Bool :=
  c = ' ' ∨ c = '\t' ∨ c = '\n' ∨ c = '\r' ∨ c = '\x0b' ∨ c = '\x0c'

/-- Case-insensitive character comparison against a lowercase letter. -/
def charLowerEq (a b : Char) : Bool := a.toLower == b

/-- Match the literal `://` at the head of the character list. -/
def stripColonSlashSlash : List Char → Option (List Char)
  | ':' :: '/' :: '/' :: rest => some rest
  | _ => none

/-- Match `https?://` (case-insensitive letters) at the head: returns the
length of the matched scheme part and the remainder.  Mirrors the regex
backtracking: `https` is preferred, falling back to `http`. -/
def schemeSplit : List Char → Option (Nat × List Char)
  | a :: b :: c :: d :: rest =>
      if charLowerEq a 'h' ∧ charLowerEq b 't' ∧ charLowerEq c 't' ∧ charLowerEq d 'p' then
        match rest with
        | e :: rest2 =>
            if charLowerEq e 's' then
              match stripColonSlashSlash rest2 with
              | some r => some (8, r)
              | none =>
                match stripColonSlashSlash rest with
                | some r => some (7, r)
                | none => none
            else
              match stripColonSlashSlash rest with
              | some r => some (7, r)
              | none => none
        | [] => none
      else none
  | _ => none

/-- Length of the regex match starting exactly at this position, if any:
the scheme followed by a non-empty maximal run of non-whitespace. -/
def matchLenAt (cs : List Char) : Option Nat :=
  match schemeSplit cs with
  | none => none
  | some (k, rest) =>
      let run := rest.takeWhile (fun c => !(pyIsSpace c))
      if run.isEmpty then none else some (k + run.length)

/-- `re.search` for the pattern: leftmost starting index and match length. -/
def searchFrom : List Char → Option (Nat × Nat)
  | [] => none
  | c :: tl =>
      match matchLenAt (c :: tl) with
      | some len => some (0, len)
      | none =>
          match searchFrom tl with
          | some (i, len) => some (i + 1, len)
          | none => none

/-- Trailing-punctuation characters stripped by `extract_url`. -/
def isTrailingPunct (c : Char) : Bool := c = ')' ∨ c = '.' ∨ c = ','

/-- Drop leading punctuation characters (used on the reversed match). -/
def stripLeadingPunct : List Char → List Char
  | [] => []
  | c :: tl => if isTrailingPunct c then stripLeadingPunct tl else c :: tl

/-- The `while url and url[-1] in ").,"` loop of `extract_url`. -/
def stripTrailingPunct (cs : List Char) : List Char :=
  (stripLeadingPunct cs.reverse).reverse

/-- `extract_url` from bot.py. -/
def extract_url (text : String) : Option String :=
  match searchFrom text.data with
  | none => none
  | some (i, len) => some ⟨stripTrailingPunct ((text.data.drop i).take len)⟩

/-! ## `is_supported_source` -/

/-- The characters after the first occurrence of `://`, if any.
Models `urllib.parse.urlparse` for the http/https URLs this bot handles. -/
def afterSchemeChars : List Char → Option (List Char)
  | ':' :: '/' :: '/' :: rest => some rest
  | _ :: tl => afterSchemeChars tl
  | [] => none

/-- The netloc: everything after `://` up to the first `/`, `?` or `#`. -/
def netlocOf (url : String) : List Char :=
  match afterSchemeChars url.data with
  | none => []
  | some rest => rest.takeWhile (fun c => c ≠ '/' ∧ c ≠ '?' ∧ c ≠ '#')

/-- Model of `urlparse(url).hostname or ""` for http/https URLs: the netloc
with userinfo (up to the last `@`) and port (after the first `:`) removed,
lowercased as `urlparse` does.  (IPv6 bracket syntax is outside the
modelling scope.) -/
def hostname (url : String) : String :=
  let afterAt := ((netlocOf url).reverse.takeWhile (fun c => c ≠ '@')).reverse
  ⟨(afterAt.takeWhile (fun c => c ≠ ':')).map Char.toLower⟩

/-- Does the character list end with the given suffix list? -/
def endsWithChars (s sfx : List Char) : Bool :=
  s.reverse.take sfx.length == sfx.reverse

/-- `is_supported_source` from bot.py: the lowercased host must equal an
allow-listed domain or end with `"." + domain`. -/
def is_supported_source (url : String) : Bool :=
  let host := (hostname url).data.map Char.toLower
  SUPPORTED_DOMAINS.any (fun domain => host == domain.data || endsWithChars host ('.' :: domain.data))

/-! ## `build_download_options` (format policy)

The options dict handed to `yt_dlp.YoutubeDL`.  The Python function probes
`shutil.which("ffmpeg")` during its own body, so the probe result is an
explicit input of the embedding, taken at call time. -/

/-- The yt-dlp options dict built by `build_download_options`. -/
structure DlOptions where
  outtmpl : String
  noplaylist : Bool
  quiet : Bool
  no_warnings : Bool
  max_filesize : Int
  format : String
  merge_output_format : Option String
  cookiefile : Option String
deriving DecidableEq, Repr

/-- `build_download_options` from bot.py.  `ffmpeg_installed` is the result
of the `shutil.which("ffmpeg")` probe the function performs on this
invocation. -/
def build_download_options (tmp_path : String) (max_size_bytes : Int)
    (cookies_file : Option String) (video_quality : String)
    (ffmpeg_installed : Bool) : DlOptions :=
  let fmt :=
    if ffmpeg_installed then
      if video_quality = "720" then "bv*[height<=720]+ba/b[height<=720]/best[height<=720]"
      else if video_quality = "480" then "bv*[height<=480]+ba/b[height<=480]/best[height<=480]"
      else "bv*+ba/best"
    else
      if video_quality = "720" then "best[height<=720]/best"
      else if video_quality = "480" then "best[height<=480]/best"
      else "best"
  { outtmpl := tmp_path ++ "/media.%(ext)s"
    noplaylist := true
    quiet := true
    no_warnings := true
    max_filesize := max_size_bytes
    format := fmt
    merge_output_format := if ffmpeg_installed then some "mp4" else none
    cookiefile := cookies_file }

/-! ## Media classifier -/

/-- The final path component (`pathlib` name): after the last `/`. -/
def pathName (p : String) : List Char :=
  (p.data.reverse.takeWhile (fun c => c ≠ '/')).reverse

/-- Index of the last `.` in a character list, if any. -/
def lastDotPos : List Char → Option Nat
  | [] => none
  | c :: tl =>
      match lastDotPos tl with
      | some i => some (i + 1)
      | none => if c = '.' then some 0 else none

/-- Model of `pathlib.PurePath.suffix`: the extension of the final
component, including the dot; empty when the last dot is at position 0
(hidden file) or at the very end. -/
def pathSuffix (p : String) : String :=
  let name := pathName p
  match lastDotPos name with
  | some i => if 0 < i ∧ i + 1 < name.length then ⟨name.drop i⟩ else ""
  | none => ""

/-- Lowercase a string character-wise (`str.lower()` on ASCII). -/
def lowerStr (s : String) : String := ⟨s.data.map Char.toLower⟩

/-- `tg_media_kind` from bot.py. -/
def tg_media_kind (file_path : String) : String :=
  let ext := lowerStr (pathSuffix file_path)
  if IMAGE_EXTENSIONS.contains ext then "image"
  else if VIDEO_EXTENSIONS.contains ext then "video"
  else "document"

/-! ## Upload primitive chosen by the delivery branches -/

/-- The three Telegram upload/media primitives the handlers can use. -/
inductive Primitive where
  | photo
  | video
  | document
deriving DecidableEq, Repr

/-- The `if media_kind == "image" / elif media_kind == "video" and not
user_settings.send_as_file / else` branch of `handle_chosen`, deciding which
upload primitive carries the result. -/
def chosen_upload_primitive (media_kind : String) (send_as_file : Bool) : Primitive :=
  if media_kind = "image" then .photo
  else if media_kind = "video" ∧ ¬send_as_file then .video
  else .document

/-- The same three-way branch in `handle_text_link`, deciding which
`InputMedia` constructor (and hence upload primitive) is used. -/
def text_upload_primitive (media_kind : String) (send_as_file : Bool) : Primitive :=
  if media_kind = "image" then .photo
  else if media_kind = "video" ∧ ¬send_as_file then .video
  else .document

/-! ## `download_sync` over a duck-typed engine result -/

/-- A fragment of the Python value universe, enough for the shapes
`download_sync` probes on the yt-dlp result. -/
inductive PyVal where
  | pynone
  | str (s : String)
  | int (n : Int)
  | list (xs : List PyVal)
  | dict (fields : List (String × PyVal))

/-- Python truthiness on the modelled values. -/
def PyVal.truthy : PyVal → Bool
  | .pynone => false
  | .str s => !(s = "")
  | .int n => !(n = 0)
  | .list xs => !xs.isEmpty
  | .dict fs => !fs.isEmpty

/-- Is the value a dict (`isinstance(x, dict)`)? -/
def PyVal.isDict : PyVal → Bool
  | .dict _ => true
  | _ => false

/-- Python `d.get(k)` returning `None` for a missing key; `None` is also
returned when the receiver is not a dict (the code only calls it guarded by
`isinstance(info, dict)`). -/
def pyGet (v : PyVal) (k : String) : PyVal :=
  match v with
  | .dict fs => (fs.lookup k).getD .pynone
  | _ => .pynone

/-- The external collaborators of `download_sync`: the yt-dlp call (which
either returns an info value or raises `DownloadError`), the
`prepare_filename` fallback, and the filesystem probe `Path.is_file()`. -/
structure Engine where
  extractInfo : Except Unit PyVal
  prepareFilename : PyVal → String
  isFile : String → Bool

/-- The ways `download_sync` can finish: a path, the engine's
`DownloadError`, the `RuntimeError("Downloaded file not found")`, or an
unmodelled duck-typing `TypeError`. -/
inductive DSOutcome where
  | ok (path : String)
  | downloadError
  | fileNotFound
  | typeError
deriving DecidableEq, Repr

/-- The playlist-flattening step of `download_sync`: when the info value is
a dict with a truthy `entries` field, iterate it and keep the first dict
entry (default `{}`); iterating a string or dict yields no dict entries;
iterating an int raises `TypeError` (`none`). -/
def selectEntry (info : PyVal) : Option PyVal :=
  if info.isDict ∧ (pyGet info "entries").truthy then
    match pyGet info "entries" with
    | .list xs => some ((xs.find? PyVal.isDict).getD (.dict []))
    | .str _ => some (.dict [])
    | .dict _ => some (.dict [])
    | .int _ => none
    | .pynone => none
  else some info

/-- The path-resolution and existence-check tail of `download_sync`, applied
to the already-flattened info value: take `requested_downloads[0].filepath`
when it is a truthy value, else `prepare_filename`; then require the path to
name an existing file. -/
def resolvePath (e : Engine) (info1 : PyVal) : DSOutcome :=
  let info := if info1.isDict then info1 else .dict []
  let path0 : PyVal :=
    match pyGet info "requested_downloads" with
    | .list (x :: _) => if x.isDict then pyGet x "filepath" else .pynone
    | _ => .pynone
  let path : PyVal := if path0.truthy then path0 else .str (e.prepareFilename info)
  match path with
  | .str s => if e.isFile s then .ok s else .fileNotFound
  | _ => .typeError

/-- `download_sync` from bot.py, as a function of the engine oracle. -/
def download_sync (e : Engine) : DSOutcome :=
  match e.extractInfo with
  | .error _ => .downloadError
  | .ok info0 =>
      match selectEntry info0 with
      | none => .typeError
      | some info1 => resolvePath e info1

/-! ## The two delivery handlers

External Telegram/yt-dlp calls are oracles: each call either succeeds or
raises one of the exception classes the `try` blocks catch.  The handlers
become pure functions of those oracles returning the final state of the
user-visible message together with any exception escaping the handler. -/

/-- The exception classes caught by the handlers' `except` clauses. -/
inductive TgErr where
  | downloadError
  | telegramBadRequest
  | runtimeError
deriving DecidableEq, Repr

/-- The content of the user-visible message (the inline placeholder or the
direct-chat status message). -/
inductive MsgView where
  | fetching
  | finalMedia (p : Primitive) (caption : Option String)
  | failText (s : String)
deriving DecidableEq, Repr

/-- The localized failure text each `except` clause writes. -/
def failureText : TgErr → String
  | .downloadError => "Не удалось скачать видео."
  | .telegramBadRequest => "Ошибка Telegram, попробуйте еще раз."
  | .runtimeError => "Файл не найден после загрузки."

/-- Outcomes of the external calls `handle_chosen` performs, in order:
the initial status edit, the download, the upload to the cache chat, the
final media edit, and the failure-report edit used by the `except` bodies
(`none` = the call succeeds). -/
structure ChosenWorld where
  editFetching : Option TgErr
  download : Except TgErr String
  upload : Option TgErr
  editMedia : Option TgErr
  editFailure : Option TgErr

/-- `handle_chosen` from bot.py: returns the final view of the inline
message and the exception escaping the handler, if any.  The message starts
at `fetching` (its placeholder text is already the fetching notice). -/
def handle_chosen (w : ChosenWorld) (user_settings : UserSettings) (url : String) :
    MsgView × Option TgErr :=
  let report : TgErr → MsgView × Option TgErr := fun e =>
    match w.editFailure with
    | some e2 => (.fetching, some e2)
    | none => (.failText (failureText e), none)
  match w.editFetching with
  | some e => report e
  | none =>
      match w.download with
      | .error e => report e
      | .ok file_path =>
          let media_kind := tg_media_kind file_path
          let caption :=
            if user_settings.add_link ∧ media_kind = "video" then
              some (("Source: " ++ url).take 1024)
            else none
          match w.upload with
          | some e => report e
          | none =>
              match w.editMedia with
              | some e => report e
              | none =>
                  (.finalMedia (chosen_upload_primitive media_kind user_settings.send_as_file)
                    caption, none)

/-- Outcomes of the external calls `handle_text_link` performs inside its
`try` block: the download, the media edit (which also uploads the bytes),
and the failure-report `status.edit_text`. -/
structure TextWorld where
  download : Except TgErr String
  editMedia : Option TgErr
  editFailure : Option TgErr

/-- `handle_text_link` from bot.py, starting after the status message
"Скачиваю..." has been sent (that send precedes the `try` block). -/
def handle_text_link (w : TextWorld) (user_settings : UserSettings) (url : String) :
    MsgView × Option TgErr :=
  let report : TgErr → MsgView × Option TgErr := fun e =>
    match w.editFailure with
    | some e2 => (.fetching, some e2)
    | none => (.failText (failureText e), none)
  match w.download with
  | .error e => report e
  | .ok file_path =>
      let media_kind := tg_media_kind file_path
      let caption :=
        if user_settings.add_link ∧ media_kind = "video" then
          some (("Source: " ++ url).take 1024)
        else none
      match w.editMedia with
      | some e => report e
      | none =>
          (.finalMedia (text_upload_primitive media_kind user_settings.send_as_file)
            caption, none)

/-- A view is terminal when it is the final media or one of the three
localized failure texts — anything but the fetching notice. -/
def terminalView : MsgView → Bool
  | .fetching => false
  | .finalMedia _ _ => true
  | .failText s =>
      s == failureText .downloadError ||
      s == failureText .telegramBadRequest ||
      s == failureText .runtimeError

/-! ## The per-user settings store with Python reference semantics

`per_user_settings` is a dict of mutable `UserSettings` objects.  To state
the frozen-copy invariant we model the object graph explicitly: a heap of
`UserSettings` values addressed by `Nat`, and the dict mapping user ids to
addresses.  `dataclasses.replace(settings)` allocates a fresh address
holding a copy; the settings-button handler mutates through the stored
address. -/

/-- The interpreter state: the heap of settings objects, the allocation
counter, and the `per_user_settings` dict (user id to heap address). -/
structure BotState where
  heap : Nat → UserSettings
  next : Nat
  store : List (Nat × Nat)

/-- `get_user_settings` from bot.py: look up the user's settings object,
inserting a fresh default object on first access.  Returns the address of
the (shared, mutable) object. -/
def get_user_settings (s : BotState) (uid : Nat) : Nat × BotState :=
  match s.store.lookup uid with
  | some a => (a, s)
  | none =>
      let a := s.next
      (a, { heap := fun x => if x = a then {} else s.heap x,
            next := a + 1,
            store := (uid, a) :: s.store })

/-- `replace(get_user_settings(per_user_settings, uid))`: the dispatch-time
snapshot both `on_chosen` and `on_text_message` take.  Allocates a fresh
address holding a copy of the user's current settings; the copy is not
reachable from the store. -/
def dispatchSnapshot (s : BotState) (uid : Nat) : Nat × BotState :=
  let r := get_user_settings s uid
  let c := r.2.next
  (c, { heap := fun x => if x = c then r.2.heap r.1 else r.2.heap x,
        next := c + 1,
        store := r.2.store })

/-- A settings-button press for user `uid`: `on_settings_button` fetches the
user's shared settings object and mutates it in place through the
reference (`settings.video_quality = ...` etc.), modelled by an arbitrary
field update `f`. -/
def mutateUser (s : BotState) (uid : Nat) (f : UserSettings → UserSettings) : BotState :=
  let r := get_user_settings s uid
  { r.2 with heap := fun x => if x = r.1 then f (r.2.heap x) else r.2.heap x }

/-- A sequence of settings-button presses after dispatch. -/
def applyMutations (muts : List (Nat × (UserSettings → UserSettings))) (s : BotState) :
    BotState :=
  muts.foldl (fun t m => mutateUser t m.1 m.2) s

/-- Well-formedness: every address stored in the dict is below the
allocation counter. -/
def WF (s : BotState) : Prop := ∀ p ∈ s.store, p.2 < s.next

/-- The snapshot invariant: address `c` holds value `v`, sits outside the
settings dict, lies below the allocation counter, and the state is
well-formed. -/
def SnapInv (c : Nat) (v : UserSettings) (t : BotState) : Prop :=
  WF t ∧ c < t.next ∧ (∀ p ∈ t.store, p.2 ≠ c) ∧ t.heap c = v

/-! ## Event handlers (direct-chat text, settings command, chosen inline) -/

/-- Actions a handler can emit towards the transport layer. -/
inductive Action where
  | reply (text : String)
  | startPipeline (url : String) (settings : UserSettings)
deriving Repr

/-- `build_settings_text` from bot.py. -/
def build_settings_text (settings : UserSettings) : String :=
  let quality_label :=
    if settings.video_quality = "best" then "Лучшее" else settings.video_quality ++ "p"
  "Текущие настройки:\n" ++
  "Качество видео: " ++ quality_label ++ "\n" ++
  "Ссылка в подписи: " ++ (if settings.add_link then "вкл" else "выкл") ++ "\n" ++
  "Отправка видео: " ++ (if settings.send_as_file then "файлом" else "как видео")

/-- `on_text_message` from bot.py: guards (non-private chat, command
prefix, URL extraction/validation, missing user), then the dispatch-time
snapshot and the pipeline start with the snapshot value. -/
def on_text_message (chat_type : String) (text : String) (from_user : Option Nat)
    (s : BotState) : BotState × List Action :=
  if chat_type ≠ "private" then (s, [])
  else if text.data.take 1 = ['/'] then (s, [])
  else
    match extract_url text with
    | none => (s, [.reply "Отправьте ссылку из Instagram, TikTok или YouTube."])
    | some url =>
        if ¬is_supported_source url then
          (s, [.reply "Поддерживаются только Instagram, TikTok и YouTube."])
        else
          match from_user with
          | none => (s, [])
          | some uid =>
              let r := dispatchSnapshot s uid
              (r.2, [.startPipeline url (r.2.heap r.1)])

/-- `on_settings` from bot.py: only private chats with a sender get the
settings text and keyboard. -/
def on_settings (chat_type : String) (from_user : Option Nat) (s : BotState) :
    BotState × List Action :=
  if chat_type ≠ "private" ∨ from_user = none then (s, [])
  else
    match from_user with
    | none => (s, [])
    | some uid =>
        let r := get_user_settings s uid
        (r.2, [.reply (build_settings_text (r.2.heap r.1))])

/-- `on_chosen` from bot.py: extract the URL from the chosen query, require
an inline message id, snapshot the settings and start the background task
with the snapshot value. -/
def on_chosen (query : String) (has_inline_message_id : Bool) (uid : Nat)
    (s : BotState) : BotState × List Action :=
  match extract_url query with
  | none => (s, [])
  | some url =>
      if ¬has_inline_message_id then (s, [])
      else
        let r := dispatchSnapshot s uid
        (r.2, [.startPipeline url (r.2.heap r.1)])

end TGMedia

namespace TGMedia

example : extract_url "see (https://example.com/a)." = some "https://example.com/a" := by decide
example : extract_url "" = none := by decide
example : extract_url "no url here" = none := by decide
example : extract_url "HTTPS://A.B/c x" = some "HTTPS://A.B/c" := by decide
example : extract_url "x http://a ." = some "http://a" := by decide
example : is_supported_source "https://x.instagram.com/reel/1" = true := by decide
example : is_supported_source "https://INSTAGRAM.COM/p/2" = true := by decide
example : is_supported_source "https://evilinstagram.com/p" = false := by decide
example : is_supported_source "https://user:pw@www.youtube.com:443/watch?v=1" = true := by decide
example : pyInt "-1001234567890" = some (-1001234567890) := by decide
example : pyInt "abc" = none := by decide
example : pyInt " 49 " = some 49 := by decide
example : load_settings ⟨some "t", some "-100", none, none⟩ =
    .ok ⟨"t", -100, 49 * 1024 * 1024, none⟩ := rfl
example : tg_media_kind "/tmp/x/media.MP4" = "video" := by decide
example : tg_media_kind "/tmp/x/media.png" = "image" := by decide
example : tg_media_kind "/tmp/x/media.xyz" = "document" := by decide
example : tg_media_kind "/tmp/x/media" = "document" := by decide
example : pathSuffix "/a/b.tar.gz" = ".gz" := by decide
example : pathSuffix "/a/.bashrc" = "" := by decide
example :
    download_sync
      { extractInfo := .ok (.dict [("entries",
          .list [.str "x", .dict [("requested_downloads",
            .list [.dict [("filepath", .str "/t/media.mp4")]])]])]),
        prepareFilename := fun _ => "/t/pf",
        isFile := fun s => s == "/t/media.mp4" } = .ok "/t/media.mp4" := rfl
example :
    download_sync
      { extractInfo := .ok (.dict [("id", .str "v")]),
        prepareFilename := fun _ => "/t/pf",
        isFile := fun _ => false } = .fileNotFound := rfl
example :
    download_sync
      { extractInfo := .error (),
        prepareFilename := fun _ => "/t/pf",
        isFile := fun _ => true } = .downloadError := rfl

/-! ## Claim theorems -/

/-- C1: for every quality tier in best/720/480 and both values of the
muxing-availability probe, `build_download_options` produces exactly the
format-selection expression of the decision table (with muxing: best
video+audio `bv*+ba` falling back to best combined `best` for tier best;
best video of bounded height plus best audio, falling back to the best
combined stream of bounded height, for 720/480; without muxing: the best
already-combined stream for tier best; the best combined stream of bounded
height falling back to best overall for 720/480), sets the mp4 output
container exactly when muxing is available, and always passes the byte-size
ceiling. -/
theorem C1_format_policy_table (tmp : String) (sz : Int) (ck : Option String) (ff : Bool) :
    (∀ q, (build_download_options tmp sz ck q ff).max_filesize = sz) ∧
    (∀ q, (build_download_options tmp sz ck q ff).merge_output_format =
      (if ff then some "mp4" else none)) ∧
    (build_download_options tmp sz ck "best" ff).format =
      (if ff then "bv*+ba/best" else "best") ∧
    (build_download_options tmp sz ck "720" ff).format =
      (if ff then "bv*[height<=720]+ba/b[height<=720]/best[height<=720]"
       else "best[height<=720]/best") ∧
    (build_download_options tmp sz ck "480" ff).format =
      (if ff then "bv*[height<=480]+ba/b[height<=480]/best[height<=480]"
       else "best[height<=480]/best") := by
  refine ⟨fun q => rfl, fun q => rfl, ?_, ?_, ?_⟩ <;> cases ff <;> rfl

/-- C8, counterexample: the options are not independent of the call-time
`shutil.which("ffmpeg")` probe, which `build_download_options` performs on
each invocation; with identical explicit arguments, a changed probe result
changes the produced options. -/
theorem C8_probe_dependence_cex :
    build_download_options "/tmp" 100 none "best" true ≠
      build_download_options "/tmp" 100 none "best" false := by
  decide

/-- C8, amended: `build_download_options` is a pure function of its explicit
arguments together with the muxing probe result taken during that same
invocation (not once at process start): two calls with identical explicit
arguments yield identical options exactly when the call-time probe results
agree. -/
theorem C8_pure_in_args_and_probe (tmp : String) (sz : Int) (ck : Option String)
    (q : String) (p1 p2 : Bool) :
    build_download_options tmp sz ck q p1 = build_download_options tmp sz ck q p2 ↔ p1 = p2 := by
  constructor
  · intro h
    have hm := congrArg DlOptions.merge_output_format h
    cases p1 <;> cases p2 <;> simp [build_download_options] at hm ⊢
  · intro h
    rw [h]

/-- C2, counterexample: with the force-document preference on, an
image-classified result is still delivered with the photo-upload primitive
in both handlers, so the claim that neither the photo- nor the video-upload
primitive is used does not hold. -/
theorem C2_send_as_file_cex :
    chosen_upload_primitive (tg_media_kind "/tmp/x/media.png") true = Primitive.photo ∧
    text_upload_primitive (tg_media_kind "/tmp/x/media.png") true = Primitive.photo := by
  decide

/-- C2, amended: with the force-document preference on, the video-upload
primitive is never used in either mode; a video-classified file is delivered
as a document; image-classified files are still delivered with the photo
primitive. -/
theorem C2_send_as_file_forces_document (file_path : String) :
    chosen_upload_primitive (tg_media_kind file_path) true ≠ Primitive.video ∧
    text_upload_primitive (tg_media_kind file_path) true ≠ Primitive.video ∧
    (tg_media_kind file_path = "video" →
      chosen_upload_primitive (tg_media_kind file_path) true = Primitive.document ∧
      text_upload_primitive (tg_media_kind file_path) true = Primitive.document) := by
  unfold chosen_upload_primitive text_upload_primitive
  by_cases h : tg_media_kind file_path = "image" <;> simp [h]

/-- C2, witness for the amended theorem at a concrete video file. -/
theorem C2_send_as_file_witness :
    tg_media_kind "/tmp/x/media.mp4" = "video" ∧
    chosen_upload_primitive (tg_media_kind "/tmp/x/media.mp4") true = Primitive.document ∧
    text_upload_primitive (tg_media_kind "/tmp/x/media.mp4") true = Primitive.document :=
  ⟨by decide, ((C2_send_as_file_forces_document "/tmp/x/media.mp4").2.2 (by decide)).1,
    ((C2_send_as_file_forces_document "/tmp/x/media.mp4").2.2 (by decide)).2⟩

/-- C10: a text message or /settings command from a non-private chat is
dropped before any reply, pipeline start, or settings-store access: the
handlers return the store unchanged and emit no action. -/
theorem C10_nonprivate_ignored (chat_type text : String) (from_user : Option Nat)
    (s : BotState) (h : chat_type ≠ "private") :
    on_text_message chat_type text from_user s = (s, []) ∧
    on_settings chat_type from_user s = (s, []) := by
  constructor
  · unfold on_text_message
    simp [h]
  · unfold on_settings
    simp [h]

/-- C10, witness at a group chat. -/
theorem C10_nonprivate_witness :
    on_text_message "group" "https://youtu.be/x" (some 7) ⟨fun _ => {}, 0, []⟩ =
      (⟨fun _ => {}, 0, []⟩, []) ∧
    on_settings "group" (some 7) ⟨fun _ => {}, 0, []⟩ = (⟨fun _ => {}, 0, []⟩, []) :=
  C10_nonprivate_ignored "group" "https://youtu.be/x" (some 7) ⟨fun _ => {}, 0, []⟩ (by decide)

/-- C6: `is_supported_source` returns true exactly when the case-folded host
equals an allow-listed domain or ends with a dot followed by one; in
particular it accepts host x.instagram.com, accepts instagram.com in any
letter case, rejects evilinstagram.com, and rejects every host that merely
contains an allow-listed domain without an exact or proper-subdomain
match. -/
theorem C6_is_supported_source_charact :
    (∀ url, is_supported_source url = true ↔
      ∃ domain ∈ SUPPORTED_DOMAINS,
        (hostname url).data.map Char.toLower = domain.data ∨
        endsWithChars ((hostname url).data.map Char.toLower) ('.' :: domain.data) = true) ∧
    is_supported_source "https://x.instagram.com/reel/1" = true ∧
    is_supported_source "https://instagram.com/p/2" = true ∧
    is_supported_source "https://INSTAGRAM.COM/p/2" = true ∧
    is_supported_source "https://iNsTaGrAm.CoM/p/2" = true ∧
    is_supported_source "https://evilinstagram.com/p" = false ∧
    (∀ url,
      (∀ domain ∈ SUPPORTED_DOMAINS,
        (hostname url).data.map Char.toLower ≠ domain.data ∧
        endsWithChars ((hostname url).data.map Char.toLower) ('.' :: domain.data) = false) →
      is_supported_source url = false) := by
  refine ⟨fun url => ?_, by decide, by decide, by decide, by decide, by decide,
    fun url h => ?_⟩
  · simp only [is_supported_source, List.any_eq_true, Bool.or_eq_true, beq_iff_eq]
  · simp only [is_supported_source, List.any_eq_false, Bool.or_eq_true, beq_iff_eq,
      not_or]
    intro domain hd
    rcases h domain hd with ⟨h1, h2⟩
    exact ⟨h1, by simp [h2]⟩

/-- C6, witness: an off-list host is rejected. -/
theorem C6_witness : is_supported_source "https://vimeo.com/123" = false :=
  C6_is_supported_source_charact.2.2.2.2.2.2 "https://vimeo.com/123" (by decide)

/-- C9, counterexample: `load_settings` also raises when `MAX_FILE_SIZE_MB`
is set to a non-integer, even though the token is present and the cache chat
id is a valid integer — the claimed "exactly when" conditions do not cover
this case (the size conversion even runs before the token/chat-id
checks). -/
theorem C9_load_settings_cex :
    load_settings ⟨some "t", some "-100", some "abc", none⟩ = .error .badMaxSize ∧
    pyStrip "t" ≠ "" ∧ pyInt "-100" = some (-100) :=
  ⟨rfl, by decide, by decide⟩

/-- C9, amended: `load_settings` raises a startup configuration error
exactly when the size variable does not parse as an integer, the token is
missing/blank, or the cache chat id is missing/blank or not an integer; on
success it returns the stripped token, the integer chat id (negative values
allowed, as the concrete conjunct shows), the size in bytes defaulting to
49*1024*1024 when the size variable is unset, and the optional stripped
credential-file path (none when unset or blank). -/
theorem C9_load_settings_amended (env : Env) :
    ((∃ err, load_settings env = .error err) ↔
      (pyInt (pyStrip (pyOr env.max_file_size_mb "49")) = none ∨
       pyStrip (env.bot_token.getD "") = "" ∨
       pyStrip (env.cache_chat_id.getD "") = "" ∨
       pyInt (pyStrip (env.cache_chat_id.getD "")) = none)) ∧
    (∀ st, load_settings env = .ok st →
      st.token = pyStrip (env.bot_token.getD "") ∧
      some st.cache_chat_id = pyInt (pyStrip (env.cache_chat_id.getD "")) ∧
      (∀ mb, pyInt (pyStrip (pyOr env.max_file_size_mb "49")) = some mb →
        st.max_size_bytes = mb * 1024 * 1024) ∧
      (env.max_file_size_mb = none → st.max_size_bytes = 49 * 1024 * 1024) ∧
      st.cookies_file = (if pyStrip (env.cookies_file.getD "") = "" then none
        else some (pyStrip (env.cookies_file.getD "")))) ∧
    load_settings ⟨some "t", some "-1001234567890", none, none⟩ =
      .ok ⟨"t", -1001234567890, 49 * 1024 * 1024, none⟩ := by
  refine ⟨?_, ?_, rfl⟩
  · unfold load_settings
    cases hm : pyInt (pyStrip (pyOr env.max_file_size_mb "49")) with
    | none => simp
    | some mb =>
      by_cases ht : pyStrip (env.bot_token.getD "") = "" <;>
        by_cases hc : pyStrip (env.cache_chat_id.getD "") = "" <;>
        simp only [ht, hc, if_true, if_false] <;> simp [ht, hc]
      cases hp : pyInt (pyStrip (env.cache_chat_id.getD "")) <;> simp
  · intro st hok
    unfold load_settings at hok
    cases hm : pyInt (pyStrip (pyOr env.max_file_size_mb "49")) with
    | none => rw [hm] at hok; exact absurd hok (by simp)
    | some mb =>
      rw [hm] at hok
      dsimp only at hok
      by_cases ht : pyStrip (env.bot_token.getD "") = ""
      · rw [if_pos ht] at hok; exact absurd hok (by simp)
      · rw [if_neg ht] at hok
        by_cases hc : pyStrip (env.cache_chat_id.getD "") = ""
        · rw [if_pos hc] at hok; exact absurd hok (by simp)
        · rw [if_neg hc] at hok
          cases hp : pyInt (pyStrip (env.cache_chat_id.getD "")) with
          | none => rw [hp] at hok; exact absurd hok (by simp)
          | some cid =>
            rw [hp] at hok
            have hst : st = ⟨pyStrip (env.bot_token.getD ""), cid, mb * 1024 * 1024,
                if pyStrip (env.cookies_file.getD "") = "" then none
                else some (pyStrip (env.cookies_file.getD ""))⟩ := by
              cases hok
              rfl
            subst hst
            refine ⟨rfl, rfl, ?_, ?_, rfl⟩
            · intro mb2 hmb2
              cases hmb2
              rfl
            · intro hunset
              rw [hunset] at hm
              have h49 : pyInt (pyStrip (pyOr (none : Option String) "49")) = some 49 := by
                decide
              rw [h49] at hm
              cases hm
              rfl

/-- C9, witness for the amended theorem: a concrete environment with every
field set exercises the success shape and the stripped-cookie handling. -/
theorem C9_witness :
    load_settings ⟨some " tok ", some " -42 ", some "10", some " /c/cookies.txt "⟩ =
      .ok ⟨"tok", -42, 10 * 1024 * 1024, some "/c/cookies.txt"⟩ ∧
    ("tok" : String) = pyStrip " tok " :=
  ⟨rfl,
    ((C9_load_settings_amended ⟨some " tok ", some " -42 ", some "10",
      some " /c/cookies.txt "⟩).2.1 ⟨"tok", -42, 10 * 1024 * 1024,
        some "/c/cookies.txt"⟩ rfl).1⟩

/-- Every failure text the except-clauses write is a terminal view. -/
theorem terminal_failText (e : TgErr) : terminalView (.failText (failureText e)) = true := by
  cases e <;> rfl

/-- C4: in both modes, whenever one of the exception classes the
fetch-classify-deliver stages raise (`DownloadError`,
`TelegramBadRequest`, `RuntimeError`) occurs at any stage inside the try
block — and the failure-report edit itself goes through — the handler
terminates without an escaping exception and the user-visible message ends
in a terminal state (final media or a localized failure text), never left
at the fetching notice. -/
theorem C4_terminal_state (wc : ChosenWorld) (wt : TextWorld) (sc st : UserSettings)
    (uc ut : String) (hc : wc.editFailure = none) (ht : wt.editFailure = none) :
    ((handle_chosen wc sc uc).2 = none ∧
      terminalView (handle_chosen wc sc uc).1 = true) ∧
    ((handle_text_link wt st ut).2 = none ∧
      terminalView (handle_text_link wt st ut).1 = true) := by
  constructor
  · rcases wc with ⟨ef, dl, up, em, efail⟩
    simp only at hc
    subst hc
    unfold handle_chosen
    rcases ef with _ | e
    · rcases dl with e | fp
      · exact ⟨rfl, terminal_failText e⟩
      · rcases up with _ | e
        · rcases em with _ | e
          · exact ⟨rfl, rfl⟩
          · exact ⟨rfl, terminal_failText e⟩
        · exact ⟨rfl, terminal_failText e⟩
    · exact ⟨rfl, terminal_failText e⟩
  · rcases wt with ⟨dl, em, efail⟩
    simp only at ht
    subst ht
    unfold handle_text_link
    rcases dl with e | fp
    · exact ⟨rfl, terminal_failText e⟩
    · rcases em with _ | e
      · exact ⟨rfl, rfl⟩
      · exact ⟨rfl, terminal_failText e⟩

/-- C4, witness: a failing download in inline mode and a failing Telegram
edit in direct mode both leave the message in a terminal state. -/
theorem C4_witness :
    ((handle_chosen ⟨none, .error .downloadError, none, none, none⟩ {} "u").2 = none ∧
      terminalView (handle_chosen ⟨none, .error .downloadError, none, none, none⟩ {} "u").1 =
        true) ∧
    ((handle_text_link ⟨.ok "/t/media.mp4", some .telegramBadRequest, none⟩ {} "u").2 = none ∧
      terminalView
        (handle_text_link ⟨.ok "/t/media.mp4", some .telegramBadRequest, none⟩ {} "u").1 =
        true) :=
  C4_terminal_state ⟨none, .error .downloadError, none, none, none⟩
    ⟨.ok "/t/media.mp4", some .telegramBadRequest, none⟩ {} {} "u" "u" rfl rfl

/-- A path is only returned by the resolution tail when the filesystem
probe confirms it names an existing file. -/
theorem resolvePath_ok_isFile (e : Engine) (info1 : PyVal) (s : String)
    (h : resolvePath e info1 = .ok s) : e.isFile s = true := by
  unfold resolvePath at h
  dsimp only at h
  split at h
  · split at h
    · cases h
      assumption
    · exact absurd h (by simp)
  · exact absurd h (by simp)

/-- C5: `download_sync` returns a path only when it names an existing file;
a collection result is flattened to its first single-media (dict) entry,
the rest ignored; the output path comes from the first requested download's
filepath, falling back to `prepare_filename`; a resolved path that is not
an existing file yields the `RuntimeError` outcome, a condition distinct
from the engine's `DownloadError` outcome. -/
theorem C5_download_sync (e : Engine) :
    (∀ s, download_sync e = .ok s → e.isFile s = true) ∧
    (∀ info0 xs, e.extractInfo = .ok info0 → info0.isDict = true →
      pyGet info0 "entries" = .list xs → xs ≠ [] →
      download_sync e = resolvePath e ((xs.find? PyVal.isDict).getD (.dict []))) ∧
    (∀ info1 x rest s, info1.isDict = true →
      pyGet info1 "requested_downloads" = .list (x :: rest) → x.isDict = true →
      pyGet x "filepath" = .str s → s ≠ "" →
      resolvePath e info1 = (if e.isFile s then .ok s else .fileNotFound)) ∧
    (∀ info1, info1.isDict = true → pyGet info1 "requested_downloads" = .pynone →
      resolvePath e info1 =
        (if e.isFile (e.prepareFilename info1) then .ok (e.prepareFilename info1)
         else .fileNotFound)) ∧
    (∀ u, e.extractInfo = .error u → download_sync e = .downloadError) ∧
    (DSOutcome.fileNotFound ≠ DSOutcome.downloadError) := by
  refine ⟨?_, ?_, ?_, ?_, ?_, by simp⟩
  · intro s h
    unfold download_sync at h
    split at h
    · exact absurd h (by simp)
    · split at h
      · exact absurd h (by simp)
      · exact resolvePath_ok_isFile e _ s h
  · intro info0 xs he hdict hent hxs
    have hempty : xs.isEmpty = false := by
      cases xs
      · exact absurd rfl hxs
      · rfl
    unfold download_sync
    rw [he]
    have hsel : selectEntry info0 = some ((xs.find? PyVal.isDict).getD (.dict [])) := by
      unfold selectEntry
      rw [if_pos, hent]
      rw [hent]
      simp [PyVal.truthy, hdict, hempty]
    dsimp only
    rw [hsel]
  · intro info1 x rest s hdict hrd hx hfp hs
    have hs2 : (s = "") = False := by simp [hs]
    unfold resolvePath
    dsimp only
    rw [if_pos hdict, hrd]
    dsimp only
    rw [if_pos hx, hfp]
    simp [PyVal.truthy, hs2]
  · intro info1 hdict hrd
    unfold resolvePath
    dsimp only
    rw [if_pos hdict, hrd]
    simp [PyVal.truthy]
  · intro u he
    unfold download_sync
    rw [he]

/-- C5, witness: a playlist-shaped engine result whose first dict entry
carries a requested-download manifest resolves to that manifest's filepath,
and the returned path is confirmed to exist. -/
theorem C5_witness :
    (download_sync
        { extractInfo := .ok (.dict [("entries",
            .list [.str "skip", .dict [("requested_downloads",
              .list [.dict [("filepath", .str "/t/media.mp4")]])]])]),
          prepareFilename := fun _ => "/t/pf",
          isFile := fun s => s == "/t/media.mp4" } = .ok "/t/media.mp4" →
      (fun s => s == "/t/media.mp4") "/t/media.mp4" = true) ∧
    download_sync
        { extractInfo := .ok (.dict [("entries",
            .list [.str "skip", .dict [("requested_downloads",
              .list [.dict [("filepath", .str "/t/media.mp4")]])]])]),
          prepareFilename := fun _ => "/t/pf",
          isFile := fun s => s == "/t/media.mp4" } =
      resolvePath
        { extractInfo := .ok (.dict [("entries",
            .list [.str "skip", .dict [("requested_downloads",
              .list [.dict [("filepath", .str "/t/media.mp4")]])]])]),
          prepareFilename := fun _ => "/t/pf",
          isFile := fun s => s == "/t/media.mp4" }
        (((([.str "skip", .dict [("requested_downloads",
            .list [.dict [("filepath", .str "/t/media.mp4")]])]]) :
          List PyVal).find? PyVal.isDict).getD (.dict [])) :=
  ⟨(C5_download_sync _).1 "/t/media.mp4",
    (C5_download_sync _).2.1
      (.dict [("entries", .list [.str "skip", .dict [("requested_downloads",
        .list [.dict [("filepath", .str "/t/media.mp4")]])]])])
      [.str "skip", .dict [("requested_downloads",
        .list [.dict [("filepath", .str "/t/media.mp4")]])]]
      rfl rfl rfl (by simp)⟩

/-- When the regex search succeeds, it reports the leftmost position where
the pattern matches, with its match length. -/
theorem searchFrom_some (cs : List Char) (i len : Nat)
    (h : searchFrom cs = some (i, len)) :
    matchLenAt (cs.drop i) = some len ∧ ∀ j < i, matchLenAt (cs.drop j) = none := by
  induction cs generalizing i len with
  | nil => simp [searchFrom] at h
  | cons c tl ih =>
    simp only [searchFrom] at h
    cases hm : matchLenAt (c :: tl) with
    | some l =>
      rw [hm] at h
      cases h
      exact ⟨hm, fun j hj => absurd hj (Nat.not_lt_zero j)⟩
    | none =>
      rw [hm] at h
      cases hs : searchFrom tl with
      | none => rw [hs] at h; cases h
      | some p =>
        rcases p with ⟨i2, l2⟩
        rw [hs] at h
        simp only [Option.some.injEq, Prod.mk.injEq] at h
        rcases h with ⟨h4, h5⟩
        subst h4
        subst h5
        rcases ih i2 l2 hs with ⟨h1, h2⟩
        refine ⟨by simpa using h1, ?_⟩
        intro j hj
        cases j with
        | zero => simpa using hm
        | succ j2 => simpa using h2 j2 (Nat.lt_of_succ_lt_succ hj)

/-- When the regex search fails, the pattern matches at no position. -/
theorem searchFrom_none (cs : List Char) (h : searchFrom cs = none) :
    ∀ j, matchLenAt (cs.drop j) = none := by
  induction cs with
  | nil =>
    intro j
    rw [List.drop_nil]
    rfl
  | cons c tl ih =>
    intro j
    simp only [searchFrom] at h
    cases hm : matchLenAt (c :: tl) with
    | some l => rw [hm] at h; cases h
    | none =>
      rw [hm] at h
      cases hs : searchFrom tl with
      | some p => rcases p with ⟨a, b⟩; rw [hs] at h; cases h
      | none =>
        cases j with
        | zero => simpa using hm
        | succ j2 => simpa using ih hs j2

/-- The head surviving the punctuation strip is not a punctuation char. -/
theorem stripLeadingPunct_head (cs : List Char) (c : Char) (tl : List Char)
    (h : stripLeadingPunct cs = c :: tl) : isTrailingPunct c = false := by
  induction cs with
  | nil => simp [stripLeadingPunct] at h
  | cons a tla ih =>
    simp only [stripLeadingPunct] at h
    by_cases ha : isTrailingPunct a = true
    · rw [if_pos ha] at h
      exact ih h
    · rw [if_neg ha] at h
      cases h
      simpa using ha

/-- The last character surviving the trailing strip is not `)`, `.` or
`,`. -/
theorem stripTrailingPunct_getLast (cs : List Char) (c : Char)
    (h : (stripTrailingPunct cs).getLast? = some c) : isTrailingPunct c = false := by
  unfold stripTrailingPunct at h
  rw [List.getLast?_reverse] at h
  cases hsl : stripLeadingPunct cs.reverse with
  | nil => rw [hsl] at h; cases h
  | cons a tl =>
    rw [hsl] at h
    cases h
    exact stripLeadingPunct_head _ _ _ hsl

/-- C7: `extract_url` is total by construction and returns a URL exactly
when some position of the text matches the case-insensitive
`https?://`+non-whitespace pattern; the returned URL is the leftmost match
with trailing `)`, `.`, `,` repeatedly stripped, so it never ends in one of
those characters. -/
theorem C7_extract_url (text : String) :
    (extract_url text = none → ∀ j, matchLenAt (text.data.drop j) = none) ∧
    (∀ u, extract_url text = some u →
      (∃ i len, matchLenAt (text.data.drop i) = some len ∧
        (∀ j < i, matchLenAt (text.data.drop j) = none) ∧
        u = ⟨stripTrailingPunct ((text.data.drop i).take len)⟩) ∧
      (∀ c, u.data.getLast? = some c → isTrailingPunct c = false)) := by
  constructor
  · intro h j
    unfold extract_url at h
    cases hs : searchFrom text.data with
    | none => exact searchFrom_none _ hs j
    | some p => rcases p with ⟨i, len⟩; rw [hs] at h; cases h
  · intro u h
    unfold extract_url at h
    cases hs : searchFrom text.data with
    | none => rw [hs] at h; cases h
    | some p =>
      rcases p with ⟨i, len⟩
      rw [hs] at h
      cases h
      rcases searchFrom_some _ _ _ hs with ⟨h1, h2⟩
      refine ⟨⟨i, len, h1, h2, rfl⟩, ?_⟩
      intro c hc
      exact stripTrailingPunct_getLast _ _ hc

/-- C7, witness: a URL in parentheses followed by a period is extracted
with the trailing punctuation stripped, and its last character is clean. -/
theorem C7_witness :
    extract_url "see (https://example.com/a)." = some "https://example.com/a" ∧
    isTrailingPunct 'a' = false :=
  ⟨by decide,
    (C7_extract_url "see (https://example.com/a).").2 "https://example.com/a" (by decide)
      |>.2 'a' (by decide)⟩

/-- A successful association-list lookup is a member of the list. -/
theorem lookup_mem {l : List (Nat × Nat)} {k a : Nat} (h : l.lookup k = some a) :
    (k, a) ∈ l := by
  induction l with
  | nil => cases h
  | cons p tl ih =>
    rcases p with ⟨k2, a2⟩
    simp only [List.lookup] at h
    cases hk : (k == k2) with
    | true =>
      rw [hk] at h
      cases h
      have : k = k2 := by simpa using hk
      subst this
      exact List.mem_cons_self _ _
    | false =>
      rw [hk] at h
      exact List.mem_cons_of_mem _ (ih h)

/-- A settings-button mutation writes only through an address stored in the
dict (or a freshly allocated one), so it preserves the snapshot
invariant. -/
theorem mutateUser_snapInv (c : Nat) (v : UserSettings) (t : BotState) (uid : Nat)
    (f : UserSettings → UserSettings) (h : SnapInv c v t) :
    SnapInv c v (mutateUser t uid f) := by
  rcases h with ⟨hwf, hlt, hne, hval⟩
  unfold mutateUser get_user_settings
  cases hl : t.store.lookup uid with
  | some a =>
    dsimp only
    have ha : a ≠ c := hne (uid, a) (lookup_mem hl)
    refine ⟨hwf, hlt, hne, ?_⟩
    dsimp only
    rw [if_neg (fun hc => ha hc.symm)]
    exact hval
  | none =>
    dsimp only
    have hac : t.next ≠ c := fun hc => Nat.ne_of_lt hlt hc.symm
    refine ⟨?_, Nat.lt_succ_of_lt hlt, ?_, ?_⟩
    · intro p hp
      rcases List.mem_cons.mp hp with hp1 | hp2
      · subst hp1
        exact Nat.lt_succ_self _
      · exact Nat.lt_succ_of_lt (hwf p hp2)
    · intro p hp
      rcases List.mem_cons.mp hp with hp1 | hp2
      · subst hp1
        exact hac
      · exact hne p hp2
    · dsimp only
      rw [if_neg (fun hc => hac hc.symm), if_neg (fun hc => hac hc.symm)]
      exact hval

/-- Any sequence of settings-button mutations preserves the snapshot
invariant. -/
theorem applyMutations_snapInv (c : Nat) (v : UserSettings)
    (muts : List (Nat × (UserSettings → UserSettings))) :
    ∀ t, SnapInv c v t → SnapInv c v (applyMutations muts t) := by
  induction muts with
  | nil => exact fun t h => h
  | cons m tl ih =>
    intro t h
    unfold applyMutations
    rw [List.foldl_cons]
    exact ih _ (mutateUser_snapInv c v t m.1 m.2 h)

/-- The dispatch-time `replace(...)` snapshot establishes the invariant
for the freshly allocated copy. -/
theorem dispatchSnapshot_snapInv (s : BotState) (uid : Nat) (h : WF s) :
    SnapInv (dispatchSnapshot s uid).1
      ((dispatchSnapshot s uid).2.heap (dispatchSnapshot s uid).1)
      (dispatchSnapshot s uid).2 := by
  unfold dispatchSnapshot get_user_settings
  cases hl : s.store.lookup uid with
  | some a =>
    dsimp only
    refine ⟨?_, Nat.lt_succ_self _, ?_, rfl⟩
    · intro p hp
      exact Nat.lt_succ_of_lt (h p hp)
    · intro p hp
      exact Nat.ne_of_lt (h p hp)
  | none =>
    dsimp only
    refine ⟨?_, Nat.lt_succ_self _, ?_, rfl⟩
    · intro p hp
      rcases List.mem_cons.mp hp with hp1 | hp2
      · subst hp1
        exact Nat.lt_succ_of_lt (Nat.lt_succ_self _)
      · exact Nat.lt_succ_of_lt (Nat.lt_succ_of_lt (h p hp2))
    · intro p hp
      rcases List.mem_cons.mp hp with hp1 | hp2
      · subst hp1
        exact Nat.ne_of_lt (Nat.lt_succ_self _)
      · exact Nat.ne_of_lt (Nat.lt_succ_of_lt (h p hp2))

/-- C3: the settings value a pipeline run works with is the frozen copy
allocated by `replace(get_user_settings(...))` at dispatch — the mechanism
both `on_chosen` (inline mode) and `on_text_message` (direct mode) use.
Any sequence of later mutations of users' entries in the per-user settings
dict leaves the value at the snapshot address — quality tier, add-link flag
and send-as-file flag alike — unchanged. -/
theorem C3_frozen_snapshot (s : BotState) (uid : Nat)
    (muts : List (Nat × (UserSettings → UserSettings))) (h : WF s) :
    (applyMutations muts (dispatchSnapshot s uid).2).heap (dispatchSnapshot s uid).1 =
      (dispatchSnapshot s uid).2.heap (dispatchSnapshot s uid).1 :=
  (applyMutations_snapInv (dispatchSnapshot s uid).1
    ((dispatchSnapshot s uid).2.heap (dispatchSnapshot s uid).1) muts
    (dispatchSnapshot s uid).2 (dispatchSnapshot_snapInv s uid h)).2.2.2

/-- C3, witness: starting from an empty store, user 1 dispatches a request
and then flips their quality tier; the snapshot is unaffected. -/
theorem C3_witness :
    (applyMutations [(1, fun st => { st with video_quality := "480" })]
        (dispatchSnapshot ⟨fun _ => {}, 0, []⟩ 1).2).heap
      (dispatchSnapshot ⟨fun _ => {}, 0, []⟩ 1).1 =
      (dispatchSnapshot ⟨fun _ => {}, 0, []⟩ 1).2.heap
        (dispatchSnapshot ⟨fun _ => {}, 0, []⟩ 1).1 :=
  C3_frozen_snapshot ⟨fun _ => {}, 0, []⟩ 1
    [(1, fun st => { st with video_quality := "480" })]
    (fun p hp => absurd hp (List.not_mem_nil p))

end TGMedia
